import Mathlib

/-!
Verification of the `kvm-appvm` logging module (`lib/logger.py`).

The module is shallowly embedded: the filesystem is an explicit state
(`FS`) recording whether the log directory exists, the outcome the OS
would report for a `mkdir` of the log directory and for an append-open
of each file, and the textual contents of each file.  Python functions
become Lean functions on that state; a propagated Python exception is
an `Except.error`; every line written to standard error is collected in
a list, each element being the exact bytes written (so `print`, which
appends a newline, contributes `s ++ "\n"`).

The wall-clock timestamp is ambient input in the source
(`datetime.now()`), so `log`, `log_command` and `log_action` take the
already-formatted timestamp string as a parameter; the two formatting
recipes themselves (`strftime("%Y-%m-%d %H:%M:%S")` in Python, and
`date '+%Y-%m-%d %H:%M:%S'` in the shell snippet) are embedded
separately over a broken-down date-time value.
-/

/-- Outcome the operating system reports for a filesystem operation:
success, permission denied (`PermissionError` / `EACCES`), or any other
failure (disk full, invalid path, I/O error). -/
inductive FsOutcome where
  | ok
  | permDenied
  | otherError
deriving DecidableEq, Repr

/-- Filesystem state visible to the logger: whether the log directory
exists, what a `mkdir` of it would report, what an append-open of each
file (by file name inside the log directory) would report, and the
contents of each file. -/
@[ext]
structure FS where
  dirExists : Bool
  mkdirOutcome : FsOutcome
  writeOutcome : String → FsOutcome
  files : String → String

/-- Constant `LOG_DIR = Path("/var/log/kvm-appvm")`. -/
def LOG_DIR : String := "/var/log/kvm-appvm"

/-- The `LOG_FILES` dict of `logger.py`, in declaration order. -/
def LOG_FILES : List (String × String) :=
  [("appvm", "appvm.log"), ("qemu-hook", "qemu-hook.log"), ("guest-init", "guest-init.log")]

/-- Lookup `LOG_FILES.get(component, "appvm.log")`: dictionary lookup with a
default value. -/
def LOG_FILES.get (component : String) : String :=
  (LOG_FILES.lookup component).getD "appvm.log"

/-- Function `ensure_log_dir()`.  If the directory exists, return `True`;
otherwise try to create it, catching only `PermissionError` (warning on
stderr, return `False`); any other `OSError` propagates.  Result:
new state, the boolean result, and the stderr output. -/
def ensure_log_dir (fs : FS) : Except Unit (FS × Bool × List String) :=
  if fs.dirExists then .ok (fs, true, [])
  else
    match fs.mkdirOutcome with
    | .ok => .ok ({ fs with dirExists := true }, true, [])
    | .permDenied =>
        .ok (fs, false, ["Warning: Cannot create " ++ LOG_DIR ++ ", logging to stderr\n"])
    | .otherError => .error ()

/-- Python truthiness of an optional string: `if command:` is taken for
`None` and for the empty string. -/
def pyTruthy : Option String → Bool
  | none => false
  | some s => s ≠ ""

/-- The `log_entry` string built by `log()`: `[<timestamp>] [<action>]`,
then ` command: <command>` when `command` is truthy, then a space and
the message when `message` is truthy, then a newline. -/
def log_entry (timestamp action : String) (command message : Option String) : String :=
  let e := "[" ++ timestamp ++ "] [" ++ action ++ "]"
  let e := if pyTruthy command then e ++ " command: " ++ command.getD "" else e
  let e := if pyTruthy message then e ++ " " ++ message.getD "" else e
  e ++ "\n"

/-- Append `line` to file `file` of state `fs`, leaving every other
file unchanged. -/
def FS.append (fs : FS) (file line : String) : FS :=
  { fs with files := fun g => if g = file then fs.files g ++ line else fs.files g }

/-- Function `log(component, action, command=None, message=None)`.  Builds the
entry, calls `ensure_log_dir()`; on success appends to the mapped file,
catching only `PermissionError` (warning naming the file, then the
entry, both printed to stderr); on reported failure prints the entry to
stderr.  `print` appends a newline to what it is given. -/
def log (fs : FS) (timestamp component action : String)
    (command message : Option String) : Except Unit (FS × List String) :=
  let entry := log_entry timestamp action command message
  match ensure_log_dir fs with
  | .error e => .error e
  | .ok (fs1, success, errs) =>
    if success then
      let file := LOG_FILES.get component
      match fs1.writeOutcome file with
      | .ok => .ok (fs1.append file entry, errs)
      | .permDenied =>
          .ok (fs1, errs ++ ["Warning: Cannot write to " ++ LOG_DIR ++ "/" ++ file ++ "\n",
                             entry ++ "\n"])
      | .otherError => .error ()
    else
      .ok (fs1, errs ++ [entry ++ "\n"])

/-- Function `log_command(component, action, cmd)`: join the argument list with
single spaces (`" ".join(str(arg) for arg in cmd)`; the arguments are
modelled as the strings `str` produces) and delegate to `log` with the
result as `command`. -/
def log_command (fs : FS) (timestamp component action : String) (cmd : List String) :
    Except Unit (FS × List String) :=
  let command_str := String.intercalate " " cmd
  log fs timestamp component action (some command_str) none

/-- The `case "$component"` file selection of the shell function
`log_action` in `BASH_LOG_FUNCTION`. -/
def shLogFile (component : String) : String :=
  if component = "qemu-hook" then "qemu-hook.log"
  else if component = "guest-init" then "guest-init.log"
  else "appvm.log"

/-- The `log_dir` local of the shell function `log_action`. -/
def sh_log_dir : String := "/var/log/kvm-appvm"

/-- The shell function `log_action <component> <action> <message>`:
pick the file by `case`, `mkdir -p` swallowing every error, then
`echo "[$timestamp] [$action] $message" >> "$log_file"`, and on any
append failure `echo` the same line to stderr.  `echo` terminates its
output with a newline; the append fails when the directory is absent or
the file reports a non-`ok` outcome. -/
def log_action (fs : FS) (timestamp component action message : String) : FS × List String :=
  let log_file := shLogFile component
  let line := "[" ++ timestamp ++ "] [" ++ action ++ "] " ++ message ++ "\n"
  let fs1 :=
    if fs.dirExists then fs
    else
      match fs.mkdirOutcome with
      | .ok => { fs with dirExists := true }
      | _ => fs
  if fs1.dirExists then
    match fs1.writeOutcome log_file with
    | .ok => (fs1.append log_file line, [])
    | _ => (fs1, [line])
  else (fs1, [line])

/-- A broken-down local date-time, for embedding the two timestamp
formatting recipes. -/
structure DateTime where
  year : Nat
  month : Nat
  day : Nat
  hour : Nat
  minute : Nat
  second : Nat

/-- Zero-pad a number to two digits, as `%m`, `%d`, `%H`, `%M`, `%S` do. -/
def pad2 (n : Nat) : String := if n < 10 then "0" ++ toString n else toString n

/-- Zero-pad a number to four digits, as `%Y` does. -/
def pad4 (n : Nat) : String :=
  if n < 10 then "000" ++ toString n
  else if n < 100 then "00" ++ toString n
  else if n < 1000 then "0" ++ toString n
  else toString n

/-- Format `datetime.now().strftime("%Y-%m-%d %H:%M:%S")` applied to a
broken-down time. -/
def strftime_YmdHMS (t : DateTime) : String :=
  pad4 t.year ++ "-" ++ pad2 t.month ++ "-" ++ pad2 t.day ++ " "
    ++ pad2 t.hour ++ ":" ++ pad2 t.minute ++ ":" ++ pad2 t.second

/-- Format `date '+%Y-%m-%d %H:%M:%S'` applied to a broken-down time. -/
def date_YmdHMS (t : DateTime) : String :=
  pad4 t.year ++ "-" ++ pad2 t.month ++ "-" ++ pad2 t.day ++ " "
    ++ pad2 t.hour ++ ":" ++ pad2 t.minute ++ ":" ++ pad2 t.second

/-! ### Theorems -/

/-- Claim C1: `log`'s file lookup maps `appvm` to `appvm.log`,
`qemu-hook` to `qemu-hook.log` and `guest-init` to `guest-init.log`,
and every component name outside that mapping to the default
`appvm.log`; the lookup is a total function and never fails. -/
theorem c1_log_file_mapping (c : String)
    (h : c ≠ "appvm" ∧ c ≠ "qemu-hook" ∧ c ≠ "guest-init") :
    LOG_FILES.get "appvm" = "appvm.log" ∧
    LOG_FILES.get "qemu-hook" = "qemu-hook.log" ∧
    LOG_FILES.get "guest-init" = "guest-init.log" ∧
    LOG_FILES.get c = "appvm.log" := by
  refine ⟨rfl, rfl, rfl, ?_⟩
  obtain ⟨h1, h2, h3⟩ := h
  have e1 : (c == "appvm") = false := by simpa using h1
  have e2 : (c == "qemu-hook") = false := by simpa using h2
  have e3 : (c == "guest-init") = false := by simpa using h3
  simp [LOG_FILES.get, LOG_FILES, List.lookup, e1, e2, e3]

/-- Witness for C1 at the unrecognized component name `"other"`. -/
theorem c1_log_file_mapping_witness :
    ("other" ≠ "appvm" ∧ "other" ≠ "qemu-hook" ∧ "other" ≠ "guest-init") ∧
    (LOG_FILES.get "appvm" = "appvm.log" ∧
     LOG_FILES.get "qemu-hook" = "qemu-hook.log" ∧
     LOG_FILES.get "guest-init" = "guest-init.log" ∧
     LOG_FILES.get "other" = "appvm.log") :=
  ⟨by decide, c1_log_file_mapping "other" (by decide)⟩

/-- The line format exactly as claimed for C2: the ` command: <command>`
segment present if and only if a command was supplied at all, and the
message segment if and only if a message was supplied at all. -/
def line_iff_supplied (timestamp action : String) (command message : Option String) : String :=
  "[" ++ timestamp ++ "] [" ++ action ++ "]"
    ++ (match command with
        | some c => " command: " ++ c
        | none => "")
    ++ (match message with
        | some m => " " ++ m
        | none => "")
    ++ "\n"

/-- Reassociate a leading `"]"` literal onto the following literal so
that adjacent string literals can be folded together. -/
theorem bracket_merge (s r : String) : "]" ++ (s ++ r) = ("]" ++ s) ++ r :=
  (String.append_assoc _ _ _).symm

/-- Counterexample to claim C2 as stated: supplying the empty string as
the command yields a line with no ` command: ` segment, unlike the
claimed iff-supplied format. -/
theorem c2_line_format_counterexample :
    log_entry "2024-01-01 00:00:00" "TEST" (some "") none
        = "[2024-01-01 00:00:00] [TEST]\n" ∧
    line_iff_supplied "2024-01-01 00:00:00" "TEST" (some "") none
        = "[2024-01-01 00:00:00] [TEST] command: \n" ∧
    log_entry "2024-01-01 00:00:00" "TEST" (some "") none
        ≠ line_iff_supplied "2024-01-01 00:00:00" "TEST" (some "") none :=
  ⟨rfl, rfl, by decide⟩

/-- Claim C2, amended: the emitted line is `[<timestamp>] [<action>]`,
followed by ` command: <command>` if and only if a non-empty command was
supplied, followed by a space and the message if and only if a
non-empty message was supplied, followed by a newline; when neither is
supplied the line is exactly `[<timestamp>] [<action>]\n`. -/
theorem c2_line_format_amended (ts a : String) (cmd msg : Option String) :
    log_entry ts a cmd msg =
      "[" ++ ts ++ "] [" ++ a ++ "]"
        ++ (match cmd with
            | some c => if c = "" then "" else " command: " ++ c
            | none => "")
        ++ (match msg with
            | some m => if m = "" then "" else " " ++ m
            | none => "")
        ++ "\n" ∧
    log_entry ts a none none = "[" ++ ts ++ "] [" ++ a ++ "]" ++ "\n" := by
  constructor
  · cases cmd with
    | none =>
      cases msg with
      | none => simp [log_entry, pyTruthy]
      | some m =>
        by_cases hm : m = "" <;>
          simp [log_entry, pyTruthy, hm, String.append_empty, String.append_assoc] <;>
          simp [bracket_merge]
    | some c =>
      cases msg with
      | none =>
        by_cases hc : c = "" <;>
          simp [log_entry, pyTruthy, hc, String.append_empty, String.append_assoc] <;>
          simp [bracket_merge]
      | some m =>
        by_cases hc : c = "" <;> by_cases hm : m = "" <;>
          simp [log_entry, pyTruthy, hc, hm, String.append_empty, String.append_assoc] <;>
          simp [bracket_merge]
  · simp [log_entry, pyTruthy]

/-- Supplying the empty string as `command` builds the same entry as
supplying no command. -/
theorem log_entry_empty_command (ts a : String) (msg : Option String) :
    log_entry ts a (some "") msg = log_entry ts a none msg := by
  simp [log_entry, pyTruthy]

/-- Supplying the empty string as `message` builds the same entry as
supplying no message. -/
theorem log_entry_empty_message (ts a : String) (cmd : Option String) :
    log_entry ts a cmd (some "") = log_entry ts a cmd none := by
  simp [log_entry, pyTruthy]

/-- Claim C9: an empty command string is treated exactly as an absent
command by `log` (and hence the ` command:` segment is omitted), an
empty message string is treated exactly as an absent message, and
`log_command` with the empty argument list behaves as `log` with no
command at all. -/
theorem c9_empty_strings_absent (fs : FS) (ts c a : String) (cmd msg : Option String) :
    log fs ts c a (some "") msg = log fs ts c a none msg ∧
    log fs ts c a cmd (some "") = log fs ts c a cmd none ∧
    log_command fs ts c a [] = log fs ts c a (some "") none := by
  refine ⟨?_, ?_, rfl⟩
  · simp only [log, log_entry_empty_command]
  · simp only [log, log_entry_empty_message]

/-- Claim C8: `log_command` joins its argument list with single spaces
and produces exactly the result of `log` with that joined string as the
command; in particular for `["echo", "hello", "world"]` it matches
`log` with command `"echo hello world"`. -/
theorem c8_log_command_join (fs : FS) (ts c a : String) (args : List String) :
    log_command fs ts c a args
        = log fs ts c a (some (String.intercalate " " args)) none ∧
    log_command fs ts c a ["echo", "hello", "world"]
        = log fs ts c a (some "echo hello world") none :=
  ⟨rfl, rfl⟩

/-- A filesystem where the log directory exists and every write
succeeds. -/
def fsReady : FS :=
  { dirExists := true, mkdirOutcome := .ok, writeOutcome := fun _ => .ok, files := fun _ => "" }

/-- A filesystem where the log directory is absent and creating it is
denied by permissions. -/
def fsNoDirPerm : FS :=
  { dirExists := false, mkdirOutcome := .permDenied, writeOutcome := fun _ => .ok,
    files := fun _ => "" }

/-- A filesystem where the log directory is absent but may be created. -/
def fsNoDir : FS :=
  { dirExists := false, mkdirOutcome := .ok, writeOutcome := fun _ => .ok, files := fun _ => "" }

/-- A filesystem where the log directory exists but appending to any
file is denied by permissions. -/
def fsNoFilePerm : FS :=
  { dirExists := true, mkdirOutcome := .ok, writeOutcome := fun _ => .permDenied,
    files := fun _ => "" }

/-- Claim C4: when the directory is absent, a permission failure during
creation is not raised: `ensure_log_dir` emits a stderr warning naming
the directory and returns `false`; any other filesystem error during
creation is not caught and propagates as an exception. -/
theorem c4_ensure_log_dir_failures (fs : FS) (hd : fs.dirExists = false) :
    (fs.mkdirOutcome = .permDenied →
      ensure_log_dir fs =
        .ok (fs, false, ["Warning: Cannot create " ++ LOG_DIR ++ ", logging to stderr\n"])) ∧
    (fs.mkdirOutcome = .otherError → ensure_log_dir fs = .error ()) := by
  constructor <;> intro h <;> simp [ensure_log_dir, hd, h]

/-- Witness for C4 on the concrete permission-denied filesystem. -/
theorem c4_ensure_log_dir_failures_witness :
    fsNoDirPerm.dirExists = false ∧
    ((fsNoDirPerm.mkdirOutcome = .permDenied →
      ensure_log_dir fsNoDirPerm =
        .ok (fsNoDirPerm, false,
             ["Warning: Cannot create " ++ LOG_DIR ++ ", logging to stderr\n"])) ∧
     (fsNoDirPerm.mkdirOutcome = .otherError → ensure_log_dir fsNoDirPerm = .error ())) :=
  ⟨rfl, c4_ensure_log_dir_failures fsNoDirPerm rfl⟩

/-- Claim C5: when permissions allow, `ensure_log_dir` is idempotent:
the first call creates the directory exactly when it was absent, the
second call is a no-op on the resulting state, and both calls report
success (with no stderr output). -/
theorem c5_ensure_log_dir_idempotent (fs : FS)
    (hp : fs.dirExists = true ∨ fs.mkdirOutcome = .ok) :
    ∃ fs1, ensure_log_dir fs = .ok (fs1, true, []) ∧
      fs1.dirExists = true ∧
      (fs.dirExists = true → fs1 = fs) ∧
      (fs.dirExists = false → fs1 = { fs with dirExists := true }) ∧
      ensure_log_dir fs1 = .ok (fs1, true, []) := by
  by_cases hd : fs.dirExists = true
  · refine ⟨fs, by simp [ensure_log_dir, hd], hd, fun _ => rfl, ?_, by simp [ensure_log_dir, hd]⟩
    intro hf
    rw [hd] at hf
    cases hf
  · have hd' : fs.dirExists = false := by simpa using hd
    have hm : fs.mkdirOutcome = .ok := by
      rcases hp with h | h
      · exact absurd h hd
      · exact h
    refine ⟨{ fs with dirExists := true }, ?_, rfl, ?_, fun _ => rfl, ?_⟩
    · simp [ensure_log_dir, hd', hm]
    · intro hf
      rw [hd'] at hf
      cases hf
    · simp [ensure_log_dir]

/-- Witness for C5 on the concrete creatable-directory filesystem. -/
theorem c5_ensure_log_dir_idempotent_witness :
    (fsNoDir.dirExists = true ∨ fsNoDir.mkdirOutcome = .ok) ∧
    (∃ fs1, ensure_log_dir fsNoDir = .ok (fs1, true, []) ∧
      fs1.dirExists = true ∧
      (fsNoDir.dirExists = true → fs1 = fsNoDir) ∧
      (fsNoDir.dirExists = false → fs1 = { fsNoDir with dirExists := true }) ∧
      ensure_log_dir fs1 = .ok (fs1, true, [])) :=
  ⟨Or.inr rfl, c5_ensure_log_dir_idempotent fsNoDir (Or.inr rfl)⟩

/-- Claim C6: when the log directory cannot be created because of a
permission denial, `log` leaves the filesystem untouched (no file
write) and the stderr stream receives the directory warning and then
the fully formatted line (`print` adds one extra newline). -/
theorem c6_dir_failure_goes_to_stderr (fs : FS) (ts c a : String)
    (cmd msg : Option String)
    (hd : fs.dirExists = false) (hm : fs.mkdirOutcome = .permDenied) :
    log fs ts c a cmd msg =
      .ok (fs, ["Warning: Cannot create " ++ LOG_DIR ++ ", logging to stderr\n",
                log_entry ts a cmd msg ++ "\n"]) := by
  simp [log, ensure_log_dir, hd, hm]

/-- Witness for C6 on the concrete permission-denied filesystem. -/
theorem c6_dir_failure_goes_to_stderr_witness :
    (fsNoDirPerm.dirExists = false ∧ fsNoDirPerm.mkdirOutcome = .permDenied) ∧
    log fsNoDirPerm "2024-01-01 00:00:00" "appvm" "CREATE" none none =
      .ok (fsNoDirPerm,
           ["Warning: Cannot create " ++ LOG_DIR ++ ", logging to stderr\n",
            log_entry "2024-01-01 00:00:00" "CREATE" none none ++ "\n"]) :=
  ⟨⟨rfl, rfl⟩,
   c6_dir_failure_goes_to_stderr fsNoDirPerm "2024-01-01 00:00:00" "appvm" "CREATE"
     none none rfl rfl⟩

/-- Claim C7: when the directory exists but appending to the target
file is denied by permissions, `log` does not raise: it leaves the
filesystem untouched and emits to stderr a warning naming the file,
followed by the original formatted line. -/
theorem c7_write_failure_goes_to_stderr (fs : FS) (ts c a : String)
    (cmd msg : Option String)
    (hd : fs.dirExists = true) (hw : fs.writeOutcome (LOG_FILES.get c) = .permDenied) :
    log fs ts c a cmd msg =
      .ok (fs, ["Warning: Cannot write to " ++ LOG_DIR ++ "/" ++ LOG_FILES.get c ++ "\n",
                log_entry ts a cmd msg ++ "\n"]) := by
  simp [log, ensure_log_dir, hd, hw]

/-- Witness for C7 on the concrete unwritable-file filesystem. -/
theorem c7_write_failure_goes_to_stderr_witness :
    (fsNoFilePerm.dirExists = true ∧
     fsNoFilePerm.writeOutcome (LOG_FILES.get "qemu-hook") = .permDenied) ∧
    log fsNoFilePerm "2024-01-01 00:00:00" "qemu-hook" "START" none none =
      .ok (fsNoFilePerm,
           ["Warning: Cannot write to " ++ LOG_DIR ++ "/" ++ LOG_FILES.get "qemu-hook" ++ "\n",
            log_entry "2024-01-01 00:00:00" "START" none none ++ "\n"]) :=
  ⟨⟨rfl, rfl⟩,
   c7_write_failure_goes_to_stderr fsNoFilePerm "2024-01-01 00:00:00" "qemu-hook" "START"
     none none rfl rfl⟩

/-- The shell `case` file selection agrees with the Python dictionary
lookup on every component name. -/
theorem shLogFile_eq_get (c : String) : shLogFile c = LOG_FILES.get c := by
  by_cases h1 : c = "appvm"
  · simp [shLogFile, LOG_FILES.get, LOG_FILES, List.lookup, h1]
  · by_cases h2 : c = "qemu-hook"
    · simp [shLogFile, LOG_FILES.get, LOG_FILES, List.lookup, h2]
    · by_cases h3 : c = "guest-init"
      · simp [shLogFile, LOG_FILES.get, LOG_FILES, List.lookup, h3]
      · have e1 : (c == "appvm") = false := by simpa using h1
        have e2 : (c == "qemu-hook") = false := by simpa using h2
        have e3 : (c == "guest-init") = false := by simpa using h3
        simp [shLogFile, LOG_FILES.get, LOG_FILES, List.lookup, h2, h3, e1, e2, e3]

/-- Stderr output of a `log` run (empty when an exception propagated). -/
def stderr_of (r : Except Unit (FS × List String)) : List String :=
  match r with
  | .ok (_, errs) => errs
  | .error _ => []

/-- Contents of file `g` after a `log` run (empty when an exception
propagated). -/
def files_of (r : Except Unit (FS × List String)) (g : String) : String :=
  match r with
  | .ok (fs1, _) => fs1.files g
  | .error _ => ""

/-- With a truthy message and no command, the Python entry coincides
with the shell line `[<ts>] [<action>] <message>` plus newline. -/
theorem log_entry_message (ts a m : String) (hm : m ≠ "") :
    log_entry ts a none (some m) = "[" ++ ts ++ "] [" ++ a ++ "] " ++ m ++ "\n" := by
  simp [log_entry, pyTruthy, hm, String.append_assoc]

/-- Counterexample to claim C3 as stated: on a fully writable
filesystem with an empty message, `log_action` appends
`[<ts>] [TEST] \n` (trailing space) where `log` appends
`[<ts>] [TEST]\n`; and on an unwritable file, `log_action` sends only
the line to stderr where `log` sends a warning plus the line followed
by a blank line. -/
theorem c3_log_action_counterexample :
    (log_action fsReady "2024-01-01 00:00:00" "appvm" "TEST" "").1.files "appvm.log" ≠
      files_of (log fsReady "2024-01-01 00:00:00" "appvm" "TEST" none (some "")) "appvm.log" ∧
    (log_action fsNoFilePerm "2024-01-01 00:00:00" "appvm" "TEST" "hi").2 ≠
      stderr_of (log fsNoFilePerm "2024-01-01 00:00:00" "appvm" "TEST" none (some "hi")) := by
  constructor <;> decide

/-- Claim C3, amended: `log_action` uses the same timestamp format, the
same log directory, and the same per-component file selection with the
same fallback for unrecognized component names as `log`; and for every
non-empty message, when the directory exists and the append succeeds,
it appends to the same file exactly the line that
`log(component, action, message=m)` appends, with no stderr output from
either. (The stderr fallback behaviour is not identical, and for an
empty message `log_action` appends a trailing space that `log` omits,
as the counterexample shows.) -/
theorem c3_log_action_amended (t : DateTime) (fs : FS) (ts c a m : String)
    (hm : m ≠ "") (hd : fs.dirExists = true)
    (hw : fs.writeOutcome (shLogFile c) = .ok) :
    date_YmdHMS t = strftime_YmdHMS t ∧
    sh_log_dir = LOG_DIR ∧
    shLogFile c = LOG_FILES.get c ∧
    log_action fs ts c a m =
      (fs.append (LOG_FILES.get c) (log_entry ts a none (some m)), []) ∧
    log fs ts c a none (some m) =
      .ok (fs.append (LOG_FILES.get c) (log_entry ts a none (some m)), []) := by
  have hfile := shLogFile_eq_get c
  have hw' : fs.writeOutcome (LOG_FILES.get c) = .ok := by
    rw [← hfile]
    exact hw
  refine ⟨rfl, rfl, hfile, ?_, ?_⟩
  · rw [← hfile, log_entry_message ts a m hm]
    simp [log_action, hd, hw]
  · simp [log, ensure_log_dir, hd, hw']

/-- Witness for the amended C3 on a writable filesystem and the
message `"hello"`. -/
theorem c3_log_action_amended_witness :
    ("hello" ≠ "" ∧ fsReady.dirExists = true ∧
     fsReady.writeOutcome (shLogFile "appvm") = .ok) ∧
    (date_YmdHMS ⟨2024, 1, 1, 0, 0, 0⟩ = strftime_YmdHMS ⟨2024, 1, 1, 0, 0, 0⟩ ∧
     sh_log_dir = LOG_DIR ∧
     shLogFile "appvm" = LOG_FILES.get "appvm" ∧
     log_action fsReady "2024-01-01 00:00:00" "appvm" "TEST" "hello" =
       (fsReady.append (LOG_FILES.get "appvm")
          (log_entry "2024-01-01 00:00:00" "TEST" none (some "hello")), []) ∧
     log fsReady "2024-01-01 00:00:00" "appvm" "TEST" none (some "hello") =
       .ok (fsReady.append (LOG_FILES.get "appvm")
              (log_entry "2024-01-01 00:00:00" "TEST" none (some "hello")), [])) :=
  ⟨⟨by decide, rfl, rfl⟩,
   c3_log_action_amended ⟨2024, 1, 1, 0, 0, 0⟩ fsReady "2024-01-01 00:00:00" "appvm" "TEST"
     "hello" (by decide) rfl rfl⟩

/-- Claim C10: two `log` calls differing only in the component append
one and the same line (the component does not occur in the line
content) and differ only in which file receives it; every other file is
left unchanged. -/
theorem c10_line_independent_of_component (fs : FS) (ts c1 c2 a : String)
    (cmd msg : Option String) (hd : fs.dirExists = true)
    (hw : ∀ g, fs.writeOutcome g = .ok) :
    ∃ L, L = log_entry ts a cmd msg ∧
      log fs ts c1 a cmd msg = .ok (fs.append (LOG_FILES.get c1) L, []) ∧
      log fs ts c2 a cmd msg = .ok (fs.append (LOG_FILES.get c2) L, []) ∧
      (∀ g, g ≠ LOG_FILES.get c1 → (fs.append (LOG_FILES.get c1) L).files g = fs.files g) ∧
      (∀ g, g ≠ LOG_FILES.get c2 → (fs.append (LOG_FILES.get c2) L).files g = fs.files g) := by
  refine ⟨log_entry ts a cmd msg, rfl, ?_, ?_, ?_, ?_⟩
  · simp [log, ensure_log_dir, hd, hw]
  · simp [log, ensure_log_dir, hd, hw]
  · intro g hg
    simp [FS.append, hg]
  · intro g hg
    simp [FS.append, hg]

/-- Witness for C10 with components `appvm` and `guest-init`. -/
theorem c10_line_independent_of_component_witness :
    (fsReady.dirExists = true ∧ ∀ g, fsReady.writeOutcome g = .ok) ∧
    (∃ L, L = log_entry "2024-01-01 00:00:00" "START" (some "qemu") (some "vm1") ∧
      log fsReady "2024-01-01 00:00:00" "appvm" "START" (some "qemu") (some "vm1") =
        .ok (fsReady.append (LOG_FILES.get "appvm") L, []) ∧
      log fsReady "2024-01-01 00:00:00" "guest-init" "START" (some "qemu") (some "vm1") =
        .ok (fsReady.append (LOG_FILES.get "guest-init") L, []) ∧
      (∀ g, g ≠ LOG_FILES.get "appvm" →
        (fsReady.append (LOG_FILES.get "appvm") L).files g = fsReady.files g) ∧
      (∀ g, g ≠ LOG_FILES.get "guest-init" →
        (fsReady.append (LOG_FILES.get "guest-init") L).files g = fsReady.files g)) :=
  ⟨⟨rfl, fun _ => rfl⟩,
   c10_line_independent_of_component fsReady "2024-01-01 00:00:00" "appvm" "guest-init"
     "START" (some "qemu") (some "vm1") rfl (fun _ => rfl)⟩
